import Mathlib

/-!
Verification of the fovis visual-odometry driver (`VisualOdometry`), the
pyramid-level bounds (`PyramidLevel`), and the option handling, as a shallow
embedding of `src/visual_odometry.cpp` and `src/pyramid_level.cpp`.

The rigid transforms held by the driver (`Eigen::Isometry3d` values: the pose
accumulator, `ref_to_prev_frame`, the motion estimates) form a group under
composition; the embedding is parametric in a group `G` standing for SE(3).
The motion estimator and the feature detector are external collaborators of
the driver; `processFrame` receives their per-frame results as an oracle
input (`FrameInput`), exactly as the driver code consumes their return
values.  Frames are identified by handles (`ℕ`), since the driver only ever
swaps the three frame pointers (`std::swap`) and never copies a frame.
-/

namespace Fovis

/-- `clamp` from visual_odometry.cpp lines 49-54. -/
def clamp (val minval maxval : ℤ) : ℤ :=
  if val > maxval then maxval
  else if val < minval then minval
  else val

/-- Truncation toward zero of a rational, the semantics of the C cast
`(int)x` applied to the (exactly represented) product on line 204. -/
def ratTrunc (q : ℚ) : ℤ := if q < 0 then ⌈q⌉ else ⌊q⌋

/-- `_fast_threshold_min` (line 94). -/
def fastThresholdMin : ℤ := 5

/-- `_fast_threshold_max` (line 95). -/
def fastThresholdMax : ℤ := 70

/-- The configuration fields of `VisualOdometry` that `processFrame` reads
(extracted from the options on construction, lines 85-95). -/
structure Config where
  width : ℤ
  height : ℤ
  target_pixels_per_feature : ℤ
  ref_frame_change_threshold : ℤ
  use_homography_initialization : Bool
  use_adaptive_threshold : Bool
  fast_threshold_adaptive_gain : ℚ

/-- Result of one `MotionEstimator::estimateMotion` call, as observed by the
driver: `isMotionEstimateValid()`, `getMotionEstimate()`, `getNumInliers()`. -/
structure EstimateResult (G : Type) where
  valid : Bool
  motion : G
  inliers : ℤ

/-- Oracle input for one `processFrame` call: the results the external
collaborators return to the driver on this frame.  `prev_estimate` is the
result the estimator would return for the fallback attempt against the
previous frame (consumed only when the driver actually makes that call). -/
structure FrameInput (G : Type) where
  num_detected_keypoints : ℤ
  init_rotation : G
  ref_estimate : EstimateResult G
  prev_estimate : EstimateResult G

/-- Driver state across `processFrame` calls: the three frame handles, the
`_change_reference_frames` flag, `_frame_count`, `_fast_threshold`, the pose
accumulator, `_p->ref_to_prev_frame`, `_p->motion_estimate`, and the
estimator state left over from the last `estimateMotion` call. -/
structure VOState (G : Type) where
  ref_frame : ℕ
  prev_frame : ℕ
  cur_frame : ℕ
  change_reference_frames : Bool
  frame_count : ℕ
  fast_threshold : ℤ
  pose : G
  ref_to_prev_frame : G
  motion_estimate : G
  last_estimate_valid : Bool
  last_num_inliers : ℤ

/-- Observable events of one `processFrame` call: which frame handle
`prepareFrame` ran on, whether `estimateInitialRotation` ran, whether any
`estimateMotion` ran, the value of `_p->ref_to_prev_frame` after the
frame-rotation block (lines 178-185), and whether the fallback second
`estimateMotion` against the previous frame was attempted (line 261). -/
structure FrameTrace (G : Type) where
  prepared_frame : ℕ
  ran_initial_rotation : Bool
  ran_estimator : Bool
  ref_to_prev_after_swap : G
  fallback_attempted : Bool

/-- Adaptive FAST-threshold update, lines 199-208: proportional control with
integer target `width*height / target_pixels_per_feature` (C integer
division), error `detected - target`, adjustment `(int)(err * gain)`
(truncation toward zero), and a final clamp to `[5, 70]`. -/
def adaptThreshold (cfg : Config) (thr detected : ℤ) : ℤ :=
  if cfg.use_adaptive_threshold then
    let target := Int.tdiv (cfg.width * cfg.height) cfg.target_pixels_per_feature
    let err := detected - target
    let adj := ratTrunc ((err : ℚ) * cfg.fast_threshold_adaptive_gain)
    clamp (thr + adj) fastThresholdMin fastThresholdMax
  else thr

variable {G : Type}

/-- The final reference-frame check, lines 277-281: if the estimator's last
estimate is invalid or its inlier count is below
`_ref_frame_change_threshold`, raise `_change_reference_frames`. -/
def refChangeCheck (cfg : Config) (st : VOState G) : VOState G :=
  if st.last_estimate_valid = false ∨ st.last_num_inliers < cfg.ref_frame_change_threshold then
    { st with change_reference_frames := true }
  else st

/-- `VisualOdometry::processFrame`, lines 175-284.  Control flow:
frame-handle rotation (178-185), snapshot of the flag (187), null motion
estimate and flag reset (190-191), `prepareFrame` on the current frame (194),
adaptive threshold (199-208), frame-count guard (210-217), initial rotation
(220-231), `estimateMotion` against the reference (240-244), on success the
accumulation block (246-252), otherwise the fallback attempt against the
previous frame if the reference frame was not just changed (253-275), and
the final reference-change check (277-281). -/
def processFrame [Group G] (cfg : Config) (s : VOState G) (inp : FrameInput G) :
    VOState G × FrameTrace G :=
  -- lines 178-185: rotate the frame handles by swap
  let refF := if s.change_reference_frames then s.cur_frame else s.ref_frame
  let prevF := if s.change_reference_frames then s.prev_frame else s.cur_frame
  let curF := if s.change_reference_frames then s.ref_frame else s.prev_frame
  let r2p : G := if s.change_reference_frames then 1 else s.ref_to_prev_frame
  let changed := s.change_reference_frames
  -- line 194 prepares curF; lines 199-208 adapt the threshold
  let thr := adaptThreshold cfg s.fast_threshold inp.num_detected_keypoints
  let fc := s.frame_count + 1
  if fc < 2 then
    -- lines 214-217: bootstrap, raise the flag and return
    (⟨refF, prevF, curF, true, fc, thr, s.pose, r2p, 1,
      s.last_estimate_valid, s.last_num_inliers⟩,
     ⟨curF, false, false, r2p, false⟩)
  else
    let ranRot := cfg.use_homography_initialization
    if inp.ref_estimate.valid then
      -- lines 246-252: accumulate pose with ref_to_prev * to_reference
      let to_reference := inp.ref_estimate.motion
      let me := r2p * to_reference
      (refChangeCheck cfg
        ⟨refF, prevF, curF, false, fc, thr, s.pose * me, to_reference⁻¹, me,
         true, inp.ref_estimate.inliers⟩,
       ⟨curF, ranRot, true, r2p, false⟩)
    else if changed then
      -- reference estimate failed and no fallback is possible (line 253)
      (refChangeCheck cfg
        ⟨refF, prevF, curF, false, fc, thr, s.pose, r2p, 1,
         false, inp.ref_estimate.inliers⟩,
       ⟨curF, ranRot, true, r2p, false⟩)
    else if inp.prev_estimate.valid then
      -- lines 261-273: fallback against the previous frame succeeded
      (refChangeCheck cfg
        ⟨refF, prevF, curF, true, fc, thr, s.pose * inp.prev_estimate.motion,
         r2p, inp.prev_estimate.motion, true, inp.prev_estimate.inliers⟩,
       ⟨curF, ranRot, true, r2p, true⟩)
    else
      -- fallback attempted and failed
      (refChangeCheck cfg
        ⟨refF, prevF, curF, false, fc, thr, s.pose, r2p, 1,
         false, inp.prev_estimate.inliers⟩,
       ⟨curF, ranRot, true, r2p, true⟩)

/-- Iterate `processFrame` over a list of per-frame oracle inputs. -/
def runFrames [Group G] (cfg : Config) : VOState G → List (FrameInput G) → VOState G
  | s, [] => s
  | s, i :: rest => runFrames cfg (processFrame cfg s i).1 rest

/-- The inter-frame motion estimates (`_p->motion_estimate`) produced along a
run of `processFrame` calls. -/
def motionsAlong [Group G] (cfg : Config) : VOState G → List (FrameInput G) → List G
  | _, [] => []
  | s, i :: rest =>
    (processFrame cfg s i).1.motion_estimate ::
      motionsAlong cfg (processFrame cfg s i).1 rest

theorem refChangeCheck_of_bad (cfg : Config) (st : VOState G)
    (h : st.last_estimate_valid = false ∨
      st.last_num_inliers < cfg.ref_frame_change_threshold) :
    refChangeCheck cfg st = { st with change_reference_frames := true } :=
  if_pos h

theorem refChangeCheck_of_good (cfg : Config) (st : VOState G)
    (h1 : st.last_estimate_valid = true)
    (h2 : ¬ st.last_num_inliers < cfg.ref_frame_change_threshold) :
    refChangeCheck cfg st = st := by
  unfold refChangeCheck
  rw [if_neg]
  rintro (h | h)
  · rw [h1] at h; exact Bool.true_eq_false.mp h
  · exact h2 h

theorem refChangeCheck_ref_frame (cfg : Config) (st : VOState G) :
    (refChangeCheck cfg st).ref_frame = st.ref_frame := by
  unfold refChangeCheck; split <;> rfl

theorem refChangeCheck_prev_frame (cfg : Config) (st : VOState G) :
    (refChangeCheck cfg st).prev_frame = st.prev_frame := by
  unfold refChangeCheck; split <;> rfl

theorem refChangeCheck_cur_frame (cfg : Config) (st : VOState G) :
    (refChangeCheck cfg st).cur_frame = st.cur_frame := by
  unfold refChangeCheck; split <;> rfl

theorem refChangeCheck_pose (cfg : Config) (st : VOState G) :
    (refChangeCheck cfg st).pose = st.pose := by
  unfold refChangeCheck; split <;> rfl

theorem refChangeCheck_frame_count (cfg : Config) (st : VOState G) :
    (refChangeCheck cfg st).frame_count = st.frame_count := by
  unfold refChangeCheck; split <;> rfl

theorem refChangeCheck_fast_threshold (cfg : Config) (st : VOState G) :
    (refChangeCheck cfg st).fast_threshold = st.fast_threshold := by
  unfold refChangeCheck; split <;> rfl

theorem refChangeCheck_motion_estimate (cfg : Config) (st : VOState G) :
    (refChangeCheck cfg st).motion_estimate = st.motion_estimate := by
  unfold refChangeCheck; split <;> rfl

theorem refChangeCheck_flag_of_true (cfg : Config) (st : VOState G)
    (h : st.change_reference_frames = true) :
    (refChangeCheck cfg st).change_reference_frames = true := by
  unfold refChangeCheck
  split
  · rfl
  · exact h

/-- Claim C6: on the very first `processFrame` call (frame count 0 at entry),
the driver prepares the current frame, sets the change-reference flag, and
returns without running the initial-rotation estimator or the motion
estimator; the pose remains identity. -/
theorem bootstrap_sets_flag_and_returns [Group G] (cfg : Config) (s : VOState G)
    (i : FrameInput G) (h0 : s.frame_count = 0) (hp : s.pose = 1) :
    (processFrame cfg s i).1.change_reference_frames = true ∧
    (processFrame cfg s i).1.pose = 1 ∧
    (processFrame cfg s i).2.ran_estimator = false ∧
    (processFrame cfg s i).2.ran_initial_rotation = false ∧
    (processFrame cfg s i).2.prepared_frame = (processFrame cfg s i).1.cur_frame := by
  simp [processFrame, h0, hp]

/-- Claim C3: a `processFrame` call entered with the change-reference flag
raised promotes the former current frame to the new reference frame by a
handle swap (the old reference handle becomes the current frame, the
previous handle is untouched) and resets `ref_to_prev_frame` to the identity
before any estimation. -/
theorem reference_switch_swaps_and_resets [Group G] (cfg : Config) (s : VOState G)
    (i : FrameInput G) (hflag : s.change_reference_frames = true) :
    (processFrame cfg s i).1.ref_frame = s.cur_frame ∧
    (processFrame cfg s i).1.cur_frame = s.ref_frame ∧
    (processFrame cfg s i).1.prev_frame = s.prev_frame ∧
    (processFrame cfg s i).2.ref_to_prev_after_swap = 1 := by
  simp only [processFrame, hflag, if_true]
  split
  · exact ⟨rfl, rfl, rfl, rfl⟩
  · split <;>
      simp [refChangeCheck_ref_frame, refChangeCheck_cur_frame,
        refChangeCheck_prev_frame]

/-- Claim C10: the fallback estimation attempt against the previous frame is
only ever made when the reference frame was not changed on the preceding
call (and the estimate against the reference frame failed). -/
theorem fallback_only_without_reference_change [Group G] (cfg : Config)
    (s : VOState G) (i : FrameInput G)
    (h : (processFrame cfg s i).2.fallback_attempted = true) :
    s.change_reference_frames = false ∧ i.ref_estimate.valid = false := by
  simp only [processFrame] at h
  split at h
  · exact absurd h (by simp)
  · split at h
    · exact absurd h (by simp)
    · rename_i hv
      split at h
      · exact absurd h (by simp)
      · rename_i hc
        exact ⟨Bool.not_eq_true _ ▸ hc, Bool.not_eq_true _ ▸ hv⟩

/-- Claim C4: when the estimate against the reference frame fails but the
fallback estimate against the previous frame succeeds, the driver
accumulates the pose with the previous-frame estimate and raises the
change-reference flag. -/
theorem fallback_accumulates_pose (cfg : Config) [Group G] (s : VOState G)
    (i : FrameInput G) (hfc : 1 ≤ s.frame_count)
    (hflag : s.change_reference_frames = false)
    (href : i.ref_estimate.valid = false)
    (hprev : i.prev_estimate.valid = true) :
    (processFrame cfg s i).1.pose = s.pose * i.prev_estimate.motion ∧
    (processFrame cfg s i).1.change_reference_frames = true ∧
    (processFrame cfg s i).2.fallback_attempted = true := by
  have hg : ¬ (s.frame_count + 1 < 2) := by omega
  simp [processFrame, hflag, href, hprev, hg, refChangeCheck_pose,
    refChangeCheck_flag_of_true]

theorem processFrame_of_valid [Group G] (cfg : Config) (s : VOState G)
    (i : FrameInput G) (hfc : 1 ≤ s.frame_count)
    (hv : i.ref_estimate.valid = true) :
    (processFrame cfg s i).1 = refChangeCheck cfg
      ⟨(if s.change_reference_frames then s.cur_frame else s.ref_frame),
       (if s.change_reference_frames then s.prev_frame else s.cur_frame),
       (if s.change_reference_frames then s.ref_frame else s.prev_frame),
       false, s.frame_count + 1,
       adaptThreshold cfg s.fast_threshold i.num_detected_keypoints,
       s.pose * ((if s.change_reference_frames then 1 else s.ref_to_prev_frame)
         * i.ref_estimate.motion),
       (i.ref_estimate.motion)⁻¹,
       (if s.change_reference_frames then 1 else s.ref_to_prev_frame)
         * i.ref_estimate.motion,
       true, i.ref_estimate.inliers⟩ := by
  have hg : ¬ (s.frame_count + 1 < 2) := by omega
  simp [processFrame, hv, hg]

theorem processFrame_of_invalid_changed [Group G] (cfg : Config)
    (s : VOState G) (i : FrameInput G) (hfc : 1 ≤ s.frame_count)
    (hv : i.ref_estimate.valid = false)
    (hc : s.change_reference_frames = true) :
    (processFrame cfg s i).1 = refChangeCheck cfg
      ⟨s.cur_frame, s.prev_frame, s.ref_frame, false, s.frame_count + 1,
       adaptThreshold cfg s.fast_threshold i.num_detected_keypoints,
       s.pose, 1, 1, false, i.ref_estimate.inliers⟩ := by
  have hg : ¬ (s.frame_count + 1 < 2) := by omega
  simp [processFrame, hv, hc, hg]

theorem processFrame_of_fallback_valid [Group G] (cfg : Config)
    (s : VOState G) (i : FrameInput G) (hfc : 1 ≤ s.frame_count)
    (hv : i.ref_estimate.valid = false)
    (hc : s.change_reference_frames = false)
    (hp : i.prev_estimate.valid = true) :
    (processFrame cfg s i).1 = refChangeCheck cfg
      ⟨s.ref_frame, s.cur_frame, s.prev_frame, true, s.frame_count + 1,
       adaptThreshold cfg s.fast_threshold i.num_detected_keypoints,
       s.pose * i.prev_estimate.motion, s.ref_to_prev_frame,
       i.prev_estimate.motion, true, i.prev_estimate.inliers⟩ := by
  have hg : ¬ (s.frame_count + 1 < 2) := by omega
  simp [processFrame, hv, hc, hp, hg]

theorem processFrame_of_fallback_invalid [Group G] (cfg : Config)
    (s : VOState G) (i : FrameInput G) (hfc : 1 ≤ s.frame_count)
    (hv : i.ref_estimate.valid = false)
    (hc : s.change_reference_frames = false)
    (hp : i.prev_estimate.valid = false) :
    (processFrame cfg s i).1 = refChangeCheck cfg
      ⟨s.ref_frame, s.cur_frame, s.prev_frame, false, s.frame_count + 1,
       adaptThreshold cfg s.fast_threshold i.num_detected_keypoints,
       s.pose, s.ref_to_prev_frame, 1, false, i.prev_estimate.inliers⟩ := by
  have hg : ¬ (s.frame_count + 1 < 2) := by omega
  simp [processFrame, hv, hc, hp, hg]

theorem normalStep [Group G] (cfg : Config) (s : VOState G)
    (i : FrameInput G) (hfc : 1 ≤ s.frame_count)
    (hv : i.ref_estimate.valid = true)
    (hinl : cfg.ref_frame_change_threshold ≤ i.ref_estimate.inliers) :
    (processFrame cfg s i).1.pose
      = s.pose * (processFrame cfg s i).1.motion_estimate ∧
    (processFrame cfg s i).1.change_reference_frames = false ∧
    1 ≤ (processFrame cfg s i).1.frame_count ∧
    (s.change_reference_frames = false →
      (processFrame cfg s i).1.ref_frame = s.ref_frame) := by
  rw [processFrame_of_valid cfg s i hfc hv,
    refChangeCheck_of_good cfg _ rfl (by simpa using (by omega :
      ¬ i.ref_estimate.inliers < cfg.ref_frame_change_threshold))]
  refine ⟨rfl, rfl, ?_, fun hflag => ?_⟩
  · show 1 ≤ s.frame_count + 1
    omega
  · simp [hflag]

/-- Claim C5: over any run of frames on which the estimator succeeds against
the reference frame with at least `ref-frame-change-threshold` inliers, the
pose accumulates by right multiplication, ending as the initial pose times
the ordered product of the inter-frame motion estimates; the
change-reference flag ends false and the reference frame handle is never
changed. -/
theorem normal_run_accumulates_pose [Group G] (cfg : Config) (s : VOState G)
    (inputs : List (FrameInput G)) (hfc : 1 ≤ s.frame_count)
    (hnorm : ∀ i ∈ inputs, i.ref_estimate.valid = true ∧
      cfg.ref_frame_change_threshold ≤ i.ref_estimate.inliers) :
    (runFrames cfg s inputs).pose
      = s.pose * (motionsAlong cfg s inputs).prod ∧
    (inputs ≠ [] → (runFrames cfg s inputs).change_reference_frames = false) ∧
    (s.change_reference_frames = false →
      (runFrames cfg s inputs).ref_frame = s.ref_frame) := by
  induction inputs generalizing s with
  | nil => simp [runFrames, motionsAlong]
  | cons i rest ih =>
    obtain ⟨hv, hinl⟩ := hnorm i (List.mem_cons_self i rest)
    obtain ⟨h1, h2, h3, h4⟩ := normalStep cfg s i hfc hv hinl
    obtain ⟨ih1, ih2, ih3⟩ := ih (processFrame cfg s i).1 h3
      (fun j hj => hnorm j (List.mem_cons_of_mem i hj))
    refine ⟨?_, ?_, ?_⟩
    · rw [runFrames, motionsAlong, List.prod_cons, ih1, h1, mul_assoc]
    · intro _
      cases rest with
      | nil =>
        rw [runFrames, runFrames]
        exact h2
      | cons j rest' =>
        rw [runFrames]
        exact ih2 (by simp)
    · intro hflag
      rw [runFrames, ih3 h2]
      exact h4 hflag

/-- Claim C1 (amended): after bootstrap, when every attempted motion
estimate is invalid the driver keeps the pose accumulator unchanged and
raises the change-reference flag; when the estimator succeeds against the
reference with fewer inliers than `ref-frame-change-threshold` the flag is
likewise raised, but the pose is accumulated with the estimate rather than
kept. -/
theorem reanchor_amended [Group G] (cfg : Config) (s : VOState G)
    (i : FrameInput G) (hfc : 1 ≤ s.frame_count) :
    (i.ref_estimate.valid = false →
      (s.change_reference_frames = true ∨ i.prev_estimate.valid = false) →
      (processFrame cfg s i).1.pose = s.pose ∧
      (processFrame cfg s i).1.change_reference_frames = true) ∧
    (i.ref_estimate.valid = true →
      i.ref_estimate.inliers < cfg.ref_frame_change_threshold →
      (processFrame cfg s i).1.change_reference_frames = true ∧
      (processFrame cfg s i).1.pose = s.pose *
        ((if s.change_reference_frames then 1 else s.ref_to_prev_frame)
          * i.ref_estimate.motion)) := by
  constructor
  · intro hv hrest
    cases hc : s.change_reference_frames with
    | true =>
      rw [processFrame_of_invalid_changed cfg s i hfc hv hc,
        refChangeCheck_of_bad cfg _ (Or.inl rfl)]
      exact ⟨rfl, rfl⟩
    | false =>
      have hp : i.prev_estimate.valid = false := by
        rcases hrest with h | h
        · rw [hc] at h; exact absurd h (by simp)
        · exact h
      rw [processFrame_of_fallback_invalid cfg s i hfc hv hc hp,
        refChangeCheck_of_bad cfg _ (Or.inl rfl)]
      exact ⟨rfl, rfl⟩
  · intro hv hinl
    rw [processFrame_of_valid cfg s i hfc hv,
      refChangeCheck_of_bad cfg _ (Or.inr hinl)]
    exact ⟨rfl, rfl⟩

/-- A concrete configuration: 640x480 image, the default
`target-pixels-per-feature` 250 and `ref-frame-change-threshold` 150,
homography seeding on, adaptive threshold off. -/
def sampleConfig : Config := ⟨640, 480, 250, 150, true, false, 0⟩

/-- A concrete post-bootstrap driver state over `Multiplicative ℤ`. -/
def sampleState : VOState (Multiplicative ℤ) :=
  ⟨0, 1, 2, false, 1, 20, 1, 1, 1, true, 200⟩

/-- A concrete state whose previous call raised the change-reference flag. -/
def flaggedState : VOState (Multiplicative ℤ) :=
  ⟨3, 4, 5, true, 2, 20, Multiplicative.ofAdd 9, Multiplicative.ofAdd 4, 1,
    true, 80⟩

/-- A concrete pre-first-frame driver state (as built by the constructor). -/
def initState : VOState (Multiplicative ℤ) :=
  ⟨0, 1, 2, false, 0, 20, 1, 1, 1, false, 0⟩

/-- An oracle input on which estimation against the reference succeeds with
many inliers. -/
def normalInput : FrameInput (Multiplicative ℤ) :=
  ⟨100, 1, ⟨true, Multiplicative.ofAdd 5, 200⟩,
    ⟨true, Multiplicative.ofAdd 7, 180⟩⟩

/-- An oracle input on which estimation against the reference fails but the
fallback against the previous frame succeeds. -/
def fallbackInput : FrameInput (Multiplicative ℤ) :=
  ⟨100, 1, ⟨false, 1, 3⟩, ⟨true, Multiplicative.ofAdd 7, 180⟩⟩

/-- An oracle input on which estimation against the reference succeeds but
with only 3 inliers, below the threshold of 150. -/
def lowInlierInput : FrameInput (Multiplicative ℤ) :=
  ⟨100, 1, ⟨true, Multiplicative.ofAdd 5, 3⟩, ⟨false, 1, 0⟩⟩

/-- An oracle input on which both estimation attempts fail. -/
def failingInput : FrameInput (Multiplicative ℤ) :=
  ⟨100, 1, ⟨false, 1, 0⟩, ⟨false, 1, 0⟩⟩

/-- Counterexample to claim C1 as frozen: on a frame where the estimator
succeeds against the reference but with fewer inliers than
`ref-frame-change-threshold`, the driver raises the change-reference flag
yet does NOT keep the pose accumulator unchanged: the pose is accumulated
with the estimate (visual_odometry.cpp line 252 runs before the check on
lines 278-281). -/
theorem reanchor_counterexample :
    lowInlierInput.ref_estimate.valid = true ∧
    lowInlierInput.ref_estimate.inliers
      < sampleConfig.ref_frame_change_threshold ∧
    (processFrame sampleConfig sampleState lowInlierInput).1.change_reference_frames
      = true ∧
    (processFrame sampleConfig sampleState lowInlierInput).1.pose
      ≠ sampleState.pose := by
  decide

/-- Witness for `reanchor_amended`: both clauses at concrete inputs. -/
theorem reanchor_amended_witness :
    (failingInput.ref_estimate.valid = false →
      (sampleState.change_reference_frames = true ∨
        failingInput.prev_estimate.valid = false) →
      (processFrame sampleConfig sampleState failingInput).1.pose
        = sampleState.pose ∧
      (processFrame sampleConfig sampleState failingInput).1.change_reference_frames
        = true) ∧
    (failingInput.ref_estimate.valid = true →
      failingInput.ref_estimate.inliers
        < sampleConfig.ref_frame_change_threshold →
      (processFrame sampleConfig sampleState failingInput).1.change_reference_frames
        = true ∧
      (processFrame sampleConfig sampleState failingInput).1.pose
        = sampleState.pose *
          ((if sampleState.change_reference_frames then 1
            else sampleState.ref_to_prev_frame)
            * failingInput.ref_estimate.motion)) :=
  reanchor_amended sampleConfig sampleState failingInput (by decide)

/-- Witness for `bootstrap_sets_flag_and_returns` at the constructor
state. -/
theorem bootstrap_sets_flag_and_returns_witness :
    (processFrame sampleConfig initState normalInput).1.change_reference_frames
      = true ∧
    (processFrame sampleConfig initState normalInput).1.pose = 1 ∧
    (processFrame sampleConfig initState normalInput).2.ran_estimator = false ∧
    (processFrame sampleConfig initState normalInput).2.ran_initial_rotation
      = false ∧
    (processFrame sampleConfig initState normalInput).2.prepared_frame
      = (processFrame sampleConfig initState normalInput).1.cur_frame :=
  bootstrap_sets_flag_and_returns sampleConfig initState normalInput rfl rfl

/-- Witness for `reference_switch_swaps_and_resets` at a flagged state. -/
theorem reference_switch_swaps_and_resets_witness :
    (processFrame sampleConfig flaggedState normalInput).1.ref_frame
      = flaggedState.cur_frame ∧
    (processFrame sampleConfig flaggedState normalInput).1.cur_frame
      = flaggedState.ref_frame ∧
    (processFrame sampleConfig flaggedState normalInput).1.prev_frame
      = flaggedState.prev_frame ∧
    (processFrame sampleConfig flaggedState normalInput).2.ref_to_prev_after_swap
      = 1 :=
  reference_switch_swaps_and_resets sampleConfig flaggedState normalInput rfl

/-- Witness for `fallback_only_without_reference_change` on a frame that
actually takes the fallback path. -/
theorem fallback_only_without_reference_change_witness :
    sampleState.change_reference_frames = false ∧
    fallbackInput.ref_estimate.valid = false :=
  fallback_only_without_reference_change sampleConfig sampleState
    fallbackInput (by decide)

/-- Witness for `fallback_accumulates_pose` at concrete inputs. -/
theorem fallback_accumulates_pose_witness :
    (processFrame sampleConfig sampleState fallbackInput).1.pose
      = sampleState.pose * fallbackInput.prev_estimate.motion ∧
    (processFrame sampleConfig sampleState fallbackInput).1.change_reference_frames
      = true ∧
    (processFrame sampleConfig sampleState fallbackInput).2.fallback_attempted
      = true :=
  fallback_accumulates_pose sampleConfig sampleState fallbackInput
    (by decide) rfl rfl rfl

/-- Witness for `normal_run_accumulates_pose` over a concrete two-frame
normal run. -/
theorem normal_run_accumulates_pose_witness :
    (runFrames sampleConfig sampleState [normalInput, normalInput]).pose
      = sampleState.pose *
        (motionsAlong sampleConfig sampleState [normalInput, normalInput]).prod ∧
    ([normalInput, normalInput] ≠ ([] : List (FrameInput (Multiplicative ℤ))) →
      (runFrames sampleConfig sampleState
        [normalInput, normalInput]).change_reference_frames = false) ∧
    (sampleState.change_reference_frames = false →
      (runFrames sampleConfig sampleState [normalInput, normalInput]).ref_frame
        = sampleState.ref_frame) :=
  normal_run_accumulates_pose sampleConfig sampleState
    [normalInput, normalInput] (by decide) (by decide)

theorem processFrame_fast_threshold [Group G] (cfg : Config) (s : VOState G)
    (i : FrameInput G) :
    (processFrame cfg s i).1.fast_threshold
      = adaptThreshold cfg s.fast_threshold i.num_detected_keypoints := by
  simp only [processFrame]
  split
  · rfl
  · split
    · rw [refChangeCheck_fast_threshold]
    · split
      · rw [refChangeCheck_fast_threshold]
      · split
        · rw [refChangeCheck_fast_threshold]
        · rw [refChangeCheck_fast_threshold]

/-- The threshold update following the spec's words (for comparison with the
source): `target = (W*H) / target_pixels_per_feature`,
`err = detected - target`, `threshold += round(err * gain)`, clamped to
`[5, 70]`. -/
def specThresholdUpdate (cfg : Config) (thr detected : ℤ) : ℤ :=
  let target := Int.tdiv (cfg.width * cfg.height) cfg.target_pixels_per_feature
  let err := detected - target
  clamp (thr + round ((err : ℚ) * cfg.fast_threshold_adaptive_gain)) 5 70

/-- A configuration with the adaptive threshold enabled and gain 1/4 (the
value a user supplies as option string "0.25", exactly representable). -/
def adaptConfig : Config := ⟨100, 100, 250, 150, true, true, 1/4⟩

/-- An oracle input reporting 47 detected keypoints. -/
def adaptInput : FrameInput (Multiplicative ℤ) :=
  ⟨47, 1, ⟨true, Multiplicative.ofAdd 5, 200⟩,
    ⟨true, Multiplicative.ofAdd 7, 180⟩⟩

/-- Counterexample to claim C2 as frozen: with a 100x100 image,
`target-pixels-per-feature` 250, gain 1/4, threshold 20 and 47 detected
keypoints, the target is 40 and `err * gain = 7/4`; the code casts with
`(int)` (truncation toward zero, visual_odometry.cpp line 204) and produces
threshold 21, while the claim's `round` gives 22. -/
theorem adaptive_threshold_counterexample :
    (processFrame adaptConfig sampleState adaptInput).1.fast_threshold = 21 ∧
    specThresholdUpdate adaptConfig sampleState.fast_threshold
      adaptInput.num_detected_keypoints = 22 ∧
    (21 : ℤ) ≠ 22 := by
  have h1 : Int.tdiv ((100 : ℤ) * 100) 250 = 40 := by decide
  refine ⟨?_, ?_, by decide⟩
  · rw [processFrame_fast_threshold]
    show adaptThreshold adaptConfig 20 47 = 21
    simp only [adaptThreshold, adaptConfig]
    rw [h1]
    norm_num [ratTrunc, clamp, fastThresholdMin, fastThresholdMax]
  · show specThresholdUpdate adaptConfig 20 47 = 22
    simp only [specThresholdUpdate, adaptConfig]
    rw [h1]
    norm_num [clamp, round_eq]

/-- Claim C2 (amended): when adaptive thresholding is enabled, every
`processFrame` call updates the FAST threshold by
`target = (W*H) / target_pixels_per_feature` (C integer division),
`err = detected - target`, `threshold += (int)(err * gain)` (truncation
toward zero, not rounding to nearest), clamped to `[5, 70]`. -/
theorem adaptive_threshold_update [Group G] (cfg : Config) (s : VOState G)
    (i : FrameInput G) (h : cfg.use_adaptive_threshold = true) :
    (processFrame cfg s i).1.fast_threshold
      = clamp (s.fast_threshold +
          ratTrunc (((i.num_detected_keypoints -
            Int.tdiv (cfg.width * cfg.height) cfg.target_pixels_per_feature : ℤ) : ℚ)
            * cfg.fast_threshold_adaptive_gain)) 5 70 := by
  rw [processFrame_fast_threshold]
  simp [adaptThreshold, h, fastThresholdMin, fastThresholdMax]

/-- Witness for `adaptive_threshold_update` at concrete inputs. -/
theorem adaptive_threshold_update_witness :
    (processFrame adaptConfig sampleState adaptInput).1.fast_threshold
      = clamp (sampleState.fast_threshold +
          ratTrunc (((adaptInput.num_detected_keypoints -
            Int.tdiv (adaptConfig.width * adaptConfig.height)
              adaptConfig.target_pixels_per_feature : ℤ) : ℚ)
            * adaptConfig.fast_threshold_adaptive_gain)) 5 70 :=
  adaptive_threshold_update adaptConfig sampleState adaptInput rfl

/-- `_initial_rotation_pyramid_level` (visual_odometry.cpp line 134). -/
def initialRotationPyramidLevel : ℕ := 4

/-- The scale matrix of lines 154-156: `S = I * (1 << l)` with
`S(2,2) = 1`. -/
def homographyScale (l : ℕ) : Matrix (Fin 3) (Fin 3) ℚ :=
  Matrix.diagonal (fun j => if j = 2 then 1 else 2 ^ l)

/-- The inverse of `homographyScale` used on line 158 (`S.inverse()`). -/
def homographyScaleInv (l : ℕ) : Matrix (Fin 3) (Fin 3) ℚ :=
  Matrix.diagonal (fun j => if j = 2 then 1 else (2 ^ l : ℚ)⁻¹)

theorem homographyScale_mul_inv (l : ℕ) :
    homographyScale l * homographyScaleInv l = 1 := by
  unfold homographyScale homographyScaleInv
  rw [Matrix.diagonal_mul_diagonal]
  have hfun : (fun j : Fin 3 =>
      (if j = 2 then (1 : ℚ) else 2 ^ l) * if j = 2 then 1 else (2 ^ l)⁻¹)
      = fun _ => (1 : ℚ) := by
    funext j
    by_cases h : j = (2 : Fin 3)
    · simp [h]
    · simp only [h, if_false]
      exact mul_inv_cancel₀ (by positivity)
  rw [hfun, Matrix.diagonal_one]

/-- The observable results of `VisualOdometry::estimateInitialRotation`
(lines 130-173): the pyramid level used for both frames, the extra template
downsampling passed to the homography estimator, the homography scaled back
to full-resolution coordinates, and the roll-pitch-yaw extracted from it. -/
structure InitialRotationResult where
  pyrLevel : ℕ
  templateDownsample : ℕ
  fullResolutionH : Matrix (Fin 3) (Fin 3) ℚ
  rpy : ℚ × ℚ × ℚ

/-- `VisualOdometry::estimateInitialRotation` (lines 130-173), with the ESM
homography tracker as an oracle (`trackedH`, its output at the chosen
level) and the transcendental functions as parameters.  The level is
`MIN(num_pyr_levels - 1, _initial_rotation_pyramid_level)` (line 136); both
images are handed to the estimator with additional downsampling
`_initial_rotation_pyramid_level - pyrLevel` (lines 144, 149); the tracked
homography is conjugated by `diag(1 << 4, 1 << 4, 1)` (lines 154-158); the
angles come from lines 164-166. -/
def estimateInitialRotation (asin : ℚ → ℚ) (atan2 : ℚ → ℚ → ℚ)
    (numLevels : ℕ) (trackedH : Matrix (Fin 3) (Fin 3) ℚ) (fx : ℚ) :
    InitialRotationResult :=
  let pyrLevel := min (numLevels - 1) initialRotationPyramidLevel
  let H := homographyScale initialRotationPyramidLevel * trackedH *
    homographyScaleInv initialRotationPyramidLevel
  ⟨pyrLevel, initialRotationPyramidLevel - pyrLevel, H,
   (asin (H 1 2 / fx), -(asin (H 0 2 / fx)), -(atan2 (H 1 0) (H 0 0)))⟩

/-- The level the claim's words prescribe: the coarsest-but-one level of a
pyramid with levels `0 .. numLevels - 1` (the coarsest being
`numLevels - 1`). -/
def coarsestButOneLevel (numLevels : ℕ) : ℕ := numLevels - 2

/-- Counterexample to claim C7 as frozen: with the default three-level
pyramid (`max-pyramid-level` = 3, the spec's "number of pyramid levels"),
`estimateInitialRotation` runs at level `MIN(3-1, 4) = 2`, the COARSEST
level, not the coarsest-but-one (level 1). -/
theorem initial_rotation_level_counterexample :
    (estimateInitialRotation (fun q => q) (fun a _ => a) 3 1 1).pyrLevel = 2 ∧
    coarsestButOneLevel 3 = 1 ∧
    (estimateInitialRotation (fun q => q) (fun a _ => a) 3 1 1).pyrLevel
      ≠ coarsestButOneLevel 3 := by
  refine ⟨rfl, rfl, by decide⟩

/-- Claim C7 (amended): the homography estimation runs at pyramid level
`min(numLevels - 1, 4)` of the two frames (the coarsest available level
whenever the pyramid has at most five levels), with the template further
downsampled by the difference to level 4, and the initial rotation is
extracted from the homography conjugated to full-resolution coordinates by
`diag(2^4, 2^4, 1)` via `roll = asin(H(1,2)/fx)`,
`pitch = -asin(H(0,2)/fx)`, `yaw = -atan2(H(1,0), H(0,0))`; the conjugation
multiplies the `asin` arguments by `2^4` and leaves the `atan2` arguments
equal to the tracked homography's entries. -/
theorem initial_rotation_extraction (asin : ℚ → ℚ) (atan2 : ℚ → ℚ → ℚ)
    (numLevels : ℕ) (trackedH : Matrix (Fin 3) (Fin 3) ℚ) (fx : ℚ) :
    (estimateInitialRotation asin atan2 numLevels trackedH fx).pyrLevel
      = min (numLevels - 1) 4 ∧
    (estimateInitialRotation asin atan2 numLevels trackedH fx).templateDownsample
      = 4 - min (numLevels - 1) 4 ∧
    (estimateInitialRotation asin atan2 numLevels trackedH fx).rpy
      = (asin ((estimateInitialRotation asin atan2 numLevels trackedH
          fx).fullResolutionH 1 2 / fx),
         -(asin ((estimateInitialRotation asin atan2 numLevels trackedH
          fx).fullResolutionH 0 2 / fx)),
         -(atan2 ((estimateInitialRotation asin atan2 numLevels trackedH
            fx).fullResolutionH 1 0)
           ((estimateInitialRotation asin atan2 numLevels trackedH
            fx).fullResolutionH 0 0))) ∧
    (estimateInitialRotation asin atan2 numLevels trackedH fx).fullResolutionH 1 2
      = 2 ^ 4 * trackedH 1 2 ∧
    (estimateInitialRotation asin atan2 numLevels trackedH fx).fullResolutionH 0 2
      = 2 ^ 4 * trackedH 0 2 ∧
    (estimateInitialRotation asin atan2 numLevels trackedH fx).fullResolutionH 1 0
      = trackedH 1 0 ∧
    (estimateInitialRotation asin atan2 numLevels trackedH fx).fullResolutionH 0 0
      = trackedH 0 0 := by
  refine ⟨rfl, rfl, rfl, ?_, ?_, ?_, ?_⟩ <;>
    simp [estimateInitialRotation, homographyScale, homographyScaleInv,
      initialRotationPyramidLevel, Matrix.diagonal_mul, Matrix.mul_diagonal] <;>
    ring

/-- A typed view of one option value.  The source's option map holds
strings; the constructor reads each through a typed getter, so an int, a
bool, or a double view is what matters to it. -/
inductive OptVal where
  | int (n : ℤ)
  | bool (b : Bool)
  | dbl (q : ℚ)
deriving DecidableEq

/-- The options map (`VisualOdometryOptions`), as an association list. -/
def VOOptions : Type := List (String × OptVal)

/-- `VisualOdometry::getDefaultOptions` (lines 301-338). -/
def getDefaultOptions : List (String × OptVal) :=
  [("feature-window-size", OptVal.int 9),
   ("max-pyramid-level", OptVal.int 3),
   ("min-pyramid-level", OptVal.int 0),
   ("target-pixels-per-feature", OptVal.int 250),
   ("fast-threshold", OptVal.int 20),
   ("use-adaptive-threshold", OptVal.bool true),
   ("fast-threshold-adaptive-gain", OptVal.dbl (1/200)),
   ("use-homography-initialization", OptVal.bool true),
   ("ref-frame-change-threshold", OptVal.int 150),
   ("use-bucketing", OptVal.bool true),
   ("bucket-width", OptVal.int 80),
   ("bucket-height", OptVal.int 80),
   ("max-keypoints-per-bucket", OptVal.int 25),
   ("use-image-normalization", OptVal.bool false),
   ("inlier-max-reprojection-error", OptVal.dbl (3/2)),
   ("clique-inlier-threshold", OptVal.dbl (1/10)),
   ("min-features-for-estimate", OptVal.int 10),
   ("max-mean-reprojection-error", OptVal.dbl 10),
   ("use-subpixel-refinement", OptVal.bool true),
   ("feature-search-window", OptVal.int 25),
   ("update-target-features-with-refined", OptVal.bool false),
   ("stereo-require-mutual-match", OptVal.bool true),
   ("stereo-max-dist-epipolar-line", OptVal.dbl (3/2)),
   ("stereo-max-refinement-displacement", OptVal.dbl 1),
   ("stereo-max-disparity", OptVal.int 128)]

/-- `validateOptions` (lines 340-353): iterate the supplied options and warn
on every key absent from the defaults; nothing else happens and nothing
fails.  Returns the warned keys. -/
def validateOptions (options defaults : List (String × OptVal)) :
    List String :=
  (options.filter (fun p => (defaults.lookup p.1).isNone)).map Prod.fst

/-- Modelled from the spec: `optionsGetIntOrFromDefault` lives in
internal_utils, which is not under src/.  Per the spec, options are read at
construction and an unknown or invalid value falls back to the default
("Log warning; continue with default"). -/
def optionsGetIntOrFromDefault (options defaults : List (String × OptVal))
    (key : String) : ℤ :=
  match options.lookup key with
  | some (OptVal.int n) => n
  | _ =>
    match defaults.lookup key with
    | some (OptVal.int n) => n
    | _ => 0

/-- Modelled from the spec: `optionsGetBoolOrFromDefault` (internal_utils,
not under src/); missing or invalid values fall back to the default. -/
def optionsGetBoolOrFromDefault (options defaults : List (String × OptVal))
    (key : String) : Bool :=
  match options.lookup key with
  | some (OptVal.bool b) => b
  | _ =>
    match defaults.lookup key with
    | some (OptVal.bool b) => b
    | _ => false

/-- Modelled from the spec: `optionsGetDoubleOrFromDefault` (internal_utils,
not under src/); missing or invalid values fall back to the default. -/
def optionsGetDoubleOrFromDefault (options defaults : List (String × OptVal))
    (key : String) : ℚ :=
  match options.lookup key with
  | some (OptVal.dbl q) => q
  | _ =>
    match defaults.lookup key with
    | some (OptVal.dbl q) => q
    | _ => 0

/-- The option fields `VisualOdometry`'s constructor extracts (lines 85-92),
in source order. -/
structure ConstructedOptions where
  feature_window_size : ℤ
  num_pyramid_levels : ℤ
  target_pixels_per_feature : ℤ
  ref_frame_change_threshold : ℤ
  use_homography_initialization : Bool
  fast_threshold : ℤ
  use_adaptive_threshold : Bool
  fast_threshold_adaptive_gain : ℚ
deriving DecidableEq

/-- The constructor's option handling (lines 79-92): warn about unrecognized
options via `validateOptions` against `getDefaultOptions`, then extract each
recognized option or its default.  Construction is total: it always yields a
configuration. -/
def mkVisualOdometry (options : List (String × OptVal)) :
    ConstructedOptions × List String :=
  let defaults := getDefaultOptions
  (⟨optionsGetIntOrFromDefault options defaults ("feature-window-size"),
    optionsGetIntOrFromDefault options defaults ("max-pyramid-level"),
    optionsGetIntOrFromDefault options defaults ("target-pixels-per-feature"),
    optionsGetIntOrFromDefault options defaults ("ref-frame-change-threshold"),
    optionsGetBoolOrFromDefault options defaults ("use-homography-initialization"),
    optionsGetIntOrFromDefault options defaults ("fast-threshold"),
    optionsGetBoolOrFromDefault options defaults ("use-adaptive-threshold"),
    optionsGetDoubleOrFromDefault options defaults ("fast-threshold-adaptive-gain")⟩,
   validateOptions options defaults)

theorem lookup_filter_known (l : List (String × OptVal)) (k : String)
    (hk : (getDefaultOptions.lookup k).isSome = true) :
    (l.filter (fun e => (getDefaultOptions.lookup e.1).isSome)).lookup k
      = l.lookup k := by
  induction l with
  | nil => rfl
  | cons e rest ih =>
    obtain ⟨k1, v1⟩ := e
    rw [List.filter_cons]
    by_cases he : (k == k1) = true
    · have hkeep : (getDefaultOptions.lookup k1).isSome = true := by
        rw [← eq_of_beq he]
        exact hk
      rw [if_pos hkeep, List.lookup_cons, List.lookup_cons, he]
    · have he' : (k == k1) = false := by
        cases hb : (k == k1)
        · rfl
        · exact absurd hb he
      by_cases hp : (getDefaultOptions.lookup k1).isSome = true
      · rw [if_pos hp, List.lookup_cons, List.lookup_cons, he', ih]
      · rw [if_neg hp, ih, List.lookup_cons, he']

theorem getInt_filter (options : List (String × OptVal)) (key : String)
    (hk : (getDefaultOptions.lookup key).isSome = true) :
    optionsGetIntOrFromDefault
        (options.filter (fun e => (getDefaultOptions.lookup e.1).isSome))
        getDefaultOptions key
      = optionsGetIntOrFromDefault options getDefaultOptions key := by
  unfold optionsGetIntOrFromDefault
  rw [lookup_filter_known options key hk]

theorem getBool_filter (options : List (String × OptVal)) (key : String)
    (hk : (getDefaultOptions.lookup key).isSome = true) :
    optionsGetBoolOrFromDefault
        (options.filter (fun e => (getDefaultOptions.lookup e.1).isSome))
        getDefaultOptions key
      = optionsGetBoolOrFromDefault options getDefaultOptions key := by
  unfold optionsGetBoolOrFromDefault
  rw [lookup_filter_known options key hk]

theorem getDouble_filter (options : List (String × OptVal)) (key : String)
    (hk : (getDefaultOptions.lookup key).isSome = true) :
    optionsGetDoubleOrFromDefault
        (options.filter (fun e => (getDefaultOptions.lookup e.1).isSome))
        getDefaultOptions key
      = optionsGetDoubleOrFromDefault options getDefaultOptions key := by
  unfold optionsGetDoubleOrFromDefault
  rw [lookup_filter_known options key hk]

/-- Claim C8: every option key not among the recognized defaults is warned
about; the constructed configuration is exactly the one built from the
recognized options alone (so unknown keys never make construction fail or
change its result); and every driver option not supplied takes its default
value. -/
theorem unknown_options_warned_not_fatal (options : List (String × OptVal)) :
    (∀ k v, (k, v) ∈ options → getDefaultOptions.lookup k = none →
      k ∈ (mkVisualOdometry options).2) ∧
    (mkVisualOdometry options).1 =
      (mkVisualOdometry (options.filter
        (fun p => (getDefaultOptions.lookup p.1).isSome))).1 ∧
    (options.lookup ("feature-window-size") = none →
      (mkVisualOdometry options).1.feature_window_size = 9) ∧
    (options.lookup ("max-pyramid-level") = none →
      (mkVisualOdometry options).1.num_pyramid_levels = 3) ∧
    (options.lookup ("target-pixels-per-feature") = none →
      (mkVisualOdometry options).1.target_pixels_per_feature = 250) ∧
    (options.lookup ("ref-frame-change-threshold") = none →
      (mkVisualOdometry options).1.ref_frame_change_threshold = 150) ∧
    (options.lookup ("use-homography-initialization") = none →
      (mkVisualOdometry options).1.use_homography_initialization = true) ∧
    (options.lookup ("fast-threshold") = none →
      (mkVisualOdometry options).1.fast_threshold = 20) ∧
    (options.lookup ("use-adaptive-threshold") = none →
      (mkVisualOdometry options).1.use_adaptive_threshold = true) ∧
    (options.lookup ("fast-threshold-adaptive-gain") = none →
      (mkVisualOdometry options).1.fast_threshold_adaptive_gain = 1/200) := by
  refine ⟨?_, ?_, ?_, ?_, ?_, ?_, ?_, ?_, ?_, ?_⟩
  · intro k v hmem hnone
    exact List.mem_map.mpr
      ⟨(k, v), List.mem_filter.mpr ⟨hmem, by simp [hnone]⟩, rfl⟩
  · simp only [mkVisualOdometry]
    rw [getInt_filter options ("feature-window-size") (by rfl),
      getInt_filter options ("max-pyramid-level") (by rfl),
      getInt_filter options ("target-pixels-per-feature") (by rfl),
      getInt_filter options ("ref-frame-change-threshold") (by rfl),
      getBool_filter options ("use-homography-initialization") (by rfl),
      getInt_filter options ("fast-threshold") (by rfl),
      getBool_filter options ("use-adaptive-threshold") (by rfl),
      getDouble_filter options ("fast-threshold-adaptive-gain") (by rfl)]
  all_goals intro h
  all_goals simp only [mkVisualOdometry, optionsGetIntOrFromDefault,
    optionsGetBoolOrFromDefault, optionsGetDoubleOrFromDefault, h]
  all_goals rfl

/-- A concrete options map with one unrecognized key and one recognized
override. -/
def demoOptions : List (String × OptVal) :=
  [("bogus-option", OptVal.int 7), ("fast-threshold", OptVal.int 30)]

/-- Witness for `unknown_options_warned_not_fatal`: the unknown key of
`demoOptions` is warned about, construction still completes, and an
unsupplied option takes its default. -/
theorem unknown_options_warned_not_fatal_witness :
    ("bogus-option") ∈ (mkVisualOdometry demoOptions).2 ∧
    (mkVisualOdometry demoOptions).1.feature_window_size = 9 := by
  obtain ⟨ha, _, hc, _⟩ := unknown_options_warned_not_fatal demoOptions
  exact ⟨ha ("bogus-option") (OptVal.int 7) (by decide) (by decide),
    hc (by decide)⟩

/-- The legal-keypoint bounds a `PyramidLevel` is constructed with
(pyramid_level.cpp lines 46-49): `_keypoint_min_x`, `_keypoint_min_y`,
`_keypoint_max_x`, `_keypoint_max_y`. -/
structure KeypointBounds where
  keypoint_min_x : ℤ
  keypoint_min_y : ℤ
  keypoint_max_x : ℤ
  keypoint_max_y : ℤ
deriving DecidableEq

/-- The bound computation of `PyramidLevel::PyramidLevel` (lines 46-49):
min = `feature_window_size`, max = `width - feature_window_size - 2`
(resp. height). -/
def mkKeypointBounds (width height feature_window_size : ℤ) :
    KeypointBounds :=
  ⟨feature_window_size, feature_window_size,
   width - feature_window_size - 2, height - feature_window_size - 2⟩

/-- Modelled from the spec: the detector-side code that enforces the
constructed bounds on reported keypoints is not under src/ (only the bounds
themselves, pyramid_level.cpp lines 46-49, are).  Per the spec's invariant
"every reported keypoint satisfies `feature_window_size ≤ u ≤ W −
feature_window_size − 2` and analogously for v", a level reports exactly the
detected candidates whose coordinates pass the bounds test. -/
def reportedKeypoints (b : KeypointBounds) (candidates : List (ℤ × ℤ)) :
    List (ℤ × ℤ) :=
  candidates.filter (fun kp =>
    decide (b.keypoint_min_x ≤ kp.1 ∧ kp.1 ≤ b.keypoint_max_x ∧
      b.keypoint_min_y ≤ kp.2 ∧ kp.2 ≤ b.keypoint_max_y))

/-- Claim C9: every keypoint a level of width `w`, height `h` and feature
window `fws` reports satisfies `fws ≤ u ≤ w - fws - 2` and
`fws ≤ v ≤ h - fws - 2`, the bounds the level is constructed with. -/
theorem keypoint_bounds (w h fws : ℤ) (cands : List (ℤ × ℤ)) (kp : ℤ × ℤ)
    (hmem : kp ∈ reportedKeypoints (mkKeypointBounds w h fws) cands) :
    fws ≤ kp.1 ∧ kp.1 ≤ w - fws - 2 ∧ fws ≤ kp.2 ∧ kp.2 ≤ h - fws - 2 := by
  have hp := (List.mem_filter.mp hmem).2
  rw [decide_eq_true_eq] at hp
  exact hp

/-- Witness for `keypoint_bounds` on a concrete 640x480 level with feature
window 9 and one legal candidate. -/
theorem keypoint_bounds_witness :
    (9 : ℤ) ≤ (9 : ℤ) ∧ (9 : ℤ) ≤ 640 - 9 - 2 ∧ (9 : ℤ) ≤ (9 : ℤ) ∧
      (9 : ℤ) ≤ 480 - 9 - 2 :=
  keypoint_bounds 640 480 9 [(9, 9)] (9, 9) (by decide)

end Fovis
